import Mathlib

/-!
Shallow embedding of the retry / batch core of src/Downloader.py.

The delegate library calls (yt_dlp extraction, mutagen tagging, os.path.abspath)
are opaque external operations; they are passed in as parameters.  An attempt of
the extraction delegate is modelled as a value of type Except PyExc String:
either the prepared file name, or one of the two exception classes the source
distinguishes in its except clauses.  A call's observable behaviour is a
RunResult: the Python return value, the number of delegate invocations, and the
trace of logging calls.
-/

/-- Exception classes distinguished by the except clauses of the download
functions in src/Downloader.py: yt_dlp.utils.DownloadError (line 129) versus
any other Exception (line 135).  KeyboardInterrupt / SystemExit, which are not
Exception subclasses in Python, are outside the model. -/
inductive PyExc where
  | downloadError (msg : String)
  | otherExc (msg : String)
deriving DecidableEq

/-- Events emitted by the logging.warning / logging.error / logging.info calls
of the embedded functions. -/
inductive LogEvent where
  | retryWarning (attempt : Nat)
  | logDownloadError (msg : String)
  | logUnexpectedError (msg : String)
  | logMetadataError (msg : String)
  | infoScheduledStart
  | infoNoSchedule
deriving DecidableEq

/-- Observable outcome of one call to a download function: the Python return
value (None is modelled as none), the number of invocations of the extraction
delegate, and the log trace. -/
structure RunResult where
  ret : Option String
  calls : Nat
  log : List LogEvent
deriving DecidableEq

/-- Model of the Python builtin str.replace for a non-empty pattern: replaces
every non-overlapping occurrence, scanning left to right.  The fuel argument is
initialised with the length of the subject string; every step consumes at least
one character of the subject and exactly one unit of fuel, so the fuel never
runs out when initialised that way. -/
def strReplaceList (pat repl : List Char) : List Char → Nat → List Char
  | _, 0 => []
  | [], _ + 1 => []
  | c :: rest, fuel + 1 =>
    if pat ≠ [] ∧ pat.isPrefixOf (c :: rest) then
      repl ++ strReplaceList pat repl ((c :: rest).drop pat.length) fuel
    else
      c :: strReplaceList pat repl rest fuel

/-- Model of the Python expression s.replace(pat, repl) for non-empty pat. -/
def pyStrReplace (s pat repl : String) : String :=
  String.mk (strReplaceList pat.data repl.data s.data s.data.length)

/-- set_metadata (src/Downloader.py lines 87-96).  The EasyID3 load, the three
tag assignments and the save are one opaque tagging operation tagOp; the
function catches every exception it raises and logs it (line 95-96), so it
always returns normally, producing only log events. -/
def set_metadata (tagOp : Except String Unit) : List LogEvent :=
  match tagOp with
  | .ok _ => []
  | .error e => [LogEvent.logMetadataError e]

/-- Path post-processing applied by download_music on line 118 (the two
str.replace calls) and line 128 (os.path.abspath, the opaque environment
function abspath). -/
def music_success (abspath : String → String) (output_format : String)
    (file_path : String) : String :=
  abspath (pyStrReplace (pyStrReplace file_path (".webm") ("." ++ output_format))
    (".m4a") ("." ++ output_format))

/-- Retry loop of download_music (src/Downloader.py lines 113-137).
extract models the ydl.extract_info / ydl.prepare_filename block of lines
115-117 for the given 0-based loop index, tag models the tagging operation
passed to set_metadata on line 126, abspath models os.path.abspath.
remaining counts the loop iterations left (initially retries) and attempt is
the 0-based loop variable, so remaining + attempt = retries throughout. -/
def download_music_loop (extract : Nat → Except PyExc String)
    (tag : Nat → Except String Unit) (abspath : String → String)
    (output_format : String) (retries : Nat) : Nat → Nat → RunResult
  | 0, _ => { ret := none, calls := 0, log := [] }
  | remaining + 1, attempt =>
    match extract attempt with
    | .ok file_path =>
      { ret := some (music_success abspath output_format file_path)
        calls := 1
        log := set_metadata (tag attempt) }
    | .error (.downloadError e) =>
      if attempt < retries - 1 then
        let r := download_music_loop extract tag abspath output_format retries
          remaining (attempt + 1)
        { ret := r.ret, calls := r.calls + 1
          log := LogEvent.retryWarning (attempt + 1) :: r.log }
      else
        { ret := none, calls := 1, log := [LogEvent.logDownloadError e] }
    | .error (.otherExc e) =>
      { ret := none, calls := 1, log := [LogEvent.logUnexpectedError e] }

/-- download_music (src/Downloader.py lines 98-137): run the retry loop for
range(retries) starting at attempt 0.  When the loop exhausts without an
explicit return (retries = 0) the Python function falls off the end and
returns None with no delegate invocation and no log output. -/
def download_music (extract : Nat → Except PyExc String)
    (tag : Nat → Except String Unit) (abspath : String → String)
    (output_format : String) (retries : Nat) : RunResult :=
  download_music_loop extract tag abspath output_format retries retries 0

/-- Retry loop of download_video (src/Downloader.py lines 149-163): identical
skeleton to download_music but with no str.replace post-processing and no
set_metadata call; the success branch returns abspath of the prepared name
(line 154). -/
def download_video_loop (extract : Nat → Except PyExc String)
    (abspath : String → String) (retries : Nat) : Nat → Nat → RunResult
  | 0, _ => { ret := none, calls := 0, log := [] }
  | remaining + 1, attempt =>
    match extract attempt with
    | .ok file_path =>
      { ret := some (abspath file_path), calls := 1, log := [] }
    | .error (.downloadError e) =>
      if attempt < retries - 1 then
        let r := download_video_loop extract abspath retries remaining (attempt + 1)
        { ret := r.ret, calls := r.calls + 1
          log := LogEvent.retryWarning (attempt + 1) :: r.log }
      else
        { ret := none, calls := 1, log := [LogEvent.logDownloadError e] }
    | .error (.otherExc e) =>
      { ret := none, calls := 1, log := [LogEvent.logUnexpectedError e] }

/-- download_video (src/Downloader.py lines 139-163). -/
def download_video (extract : Nat → Except PyExc String)
    (abspath : String → String) (retries : Nat) : RunResult :=
  download_video_loop extract abspath retries retries 0

/-- Python truthiness of the scheduled_time argument (line 438): None and the
empty string are falsy, every other string is truthy. -/
def py_truthy : Option String → Bool
  | none => false
  | some s => !s.isEmpty

/-- scheduled_download (src/Downloader.py lines 436-446).  strptime_res models
datetime.strptime on line 439: a ValueError there is not caught and propagates
out (the Except String error channel).  The busy wait of lines 440-441 is real
time and affects no returned value; after it, line 443 calls download_video
with the same url / proxy / output_format / output_dir / quality arguments
(folded into extract and abspath) and the default retries = 3, exactly as the
falsy branch does on line 446.  The logging.info calls of lines 442 and 445
are the two info log events. -/
def scheduled_download (extract : Nat → Except PyExc String)
    (abspath : String → String) (strptime_res : String → Except String Unit)
    (scheduled_time : Option String) : Except String RunResult :=
  if py_truthy scheduled_time then
    match strptime_res (scheduled_time.getD ("")) with
    | .error e => .error e
    | .ok _ =>
      let r := download_video extract abspath 3
      .ok { r with log := LogEvent.infoScheduledStart :: r.log }
  else
    let r := download_video extract abspath 3
    .ok { r with log := LogEvent.infoNoSchedule :: r.log }

/-- Per-task results of download_parallel (src/Downloader.py lines 223-230):
one download_music run per url, in submission order, each configured by the
shared proxy / output_format / output_dir / retries and its own url (perform
and tag give the delegate behaviour per url).  These are the values the
submitted futures resolve to; future.result() re-raises a task's exception,
but download_music handles every modelled exception internally, which is why
the embedding of a task's outcome is a total RunResult and not an
exception-carrying value. -/
def download_parallel_results (perform : String → Nat → Except PyExc String)
    (tag : String → Nat → Except String Unit) (abspath : String → String)
    (output_format : String) (retries : Nat) (urls : List String) :
    List RunResult :=
  urls.map fun url => download_music (perform url) (tag url) abspath
    output_format retries

/-- download_parallel (src/Downloader.py lines 223-230): submits every url,
then iterates future.result() over the futures discarding each value
(line 229-230), and returns None. -/
def download_parallel (perform : String → Nat → Except PyExc String)
    (tag : String → Nat → Except String Unit) (abspath : String → String)
    (output_format : String) (retries : Nat) (urls : List String) : Unit :=
  (download_parallel_results perform tag abspath output_format retries
    urls).foldl (fun _ _ => ()) ()

/-- State of the worker pool used by download_parallel, counting tasks not yet
started, tasks currently being processed, and completed tasks. -/
structure PoolState where
  pending : Nat
  running : Nat
  completed : Nat
deriving DecidableEq

/-- Transition relation of the thread-pool primitive (ThreadPoolExecutor,
external to this repository) as used on src/Downloader.py line 225, modelled
from its documented contract: a pending task may start only while fewer than
maxWorkers tasks are running, and a running task may finish. -/
inductive PoolStep (maxWorkers : Nat) : PoolState → PoolState → Prop where
  | start (p r c : Nat) (h : r < maxWorkers) :
      PoolStep maxWorkers ⟨p + 1, r, c⟩ ⟨p, r + 1, c⟩
  | finish (p r c : Nat) :
      PoolStep maxWorkers ⟨p, r + 1, c⟩ ⟨p, r, c + 1⟩

/-- Reachability in the pool transition system. -/
def PoolReachable (maxWorkers : Nat) (s t : PoolState) : Prop :=
  Relation.ReflTransGen (PoolStep maxWorkers) s t

/-- The max_workers argument download_parallel passes to its pool on
src/Downloader.py line 225; it is a literal, not a parameter of the call. -/
def download_parallel_max_workers : Nat := 5

/-- Helper: when every delegate invocation raises DownloadError, the loop of
download_music performs every remaining attempt, returns None and finally logs
the download error of the last attempt. -/
theorem download_music_loop_allFail (m : Nat → String)
    (tag : Nat → Except String Unit) (abspath : String → String)
    (output_format : String) (N : Nat) :
    ∀ remaining attempt, remaining + attempt = N → 1 ≤ remaining →
      (download_music_loop (fun i => Except.error (PyExc.downloadError (m i)))
          tag abspath output_format N remaining attempt).ret = none ∧
      (download_music_loop (fun i => Except.error (PyExc.downloadError (m i)))
          tag abspath output_format N remaining attempt).calls = remaining ∧
      ∃ pre, (download_music_loop (fun i => Except.error (PyExc.downloadError (m i)))
          tag abspath output_format N remaining attempt).log =
        pre ++ [LogEvent.logDownloadError (m (N - 1))] := by
  intro remaining
  induction remaining with
  | zero => intro attempt _ h1; omega
  | succ r ih =>
    intro attempt hsum _
    by_cases hr : r = 0
    · subst hr
      have hA : attempt = N - 1 := by omega
      have hc : ¬ attempt < N - 1 := by omega
      refine ⟨?_, ?_, [], ?_⟩ <;>
        simp [download_music_loop, hc, hA]
    · have hc : attempt < N - 1 := by omega
      obtain ⟨hret, hcalls, pre, hlog⟩ := ih (attempt + 1) (by omega) (by omega)
      refine ⟨?_, ?_, LogEvent.retryWarning (attempt + 1) :: pre, ?_⟩ <;>
        simp [download_music_loop, hc, hret, hcalls, hlog]

/-- C1: for a retry budget N ≥ 1 and a delegate that raises a recoverable
DownloadError on every invocation, download_music invokes the delegate exactly
N times, returns None (never raises: the except clause of line 129 handles the
error), and its final log entry is the download-error report that encodes the
DownloadFailed terminal failure. -/
theorem c1_all_recoverable_failures_exhaust_budget (m : Nat → String)
    (tag : Nat → Except String Unit) (abspath : String → String)
    (output_format : String) (N : Nat) (hN : 1 ≤ N) :
    (download_music (fun i => Except.error (PyExc.downloadError (m i)))
        tag abspath output_format N).ret = none ∧
    (download_music (fun i => Except.error (PyExc.downloadError (m i)))
        tag abspath output_format N).calls = N ∧
    ∃ pre, (download_music (fun i => Except.error (PyExc.downloadError (m i)))
        tag abspath output_format N).log =
      pre ++ [LogEvent.logDownloadError (m (N - 1))] := by
  simpa [download_music] using
    download_music_loop_allFail m tag abspath output_format N N 0 (by omega) hN

/-- Witness for C1 at N = 3 with a constant error message. -/
theorem c1_all_recoverable_failures_exhaust_budget_witness :
    1 ≤ 3 ∧
    ((download_music (fun i => Except.error (PyExc.downloadError ((fun _ => "boom") i)))
        (fun _ => Except.ok ()) id ("mp3") 3).ret = none ∧
     (download_music (fun i => Except.error (PyExc.downloadError ((fun _ => "boom") i)))
        (fun _ => Except.ok ()) id ("mp3") 3).calls = 3 ∧
     ∃ pre, (download_music (fun i => Except.error (PyExc.downloadError ((fun _ => "boom") i)))
        (fun _ => Except.ok ()) id ("mp3") 3).log =
       pre ++ [LogEvent.logDownloadError ((fun _ => "boom") (3 - 1))]) :=
  ⟨by decide, c1_all_recoverable_failures_exhaust_budget (fun _ => ("boom"))
    (fun _ => Except.ok ()) id ("mp3") 3 (by decide)⟩

/-- Helper: when the delegate raises DownloadError on every attempt before k
and succeeds at attempt k, the loop of download_music returns the processed
success path after exactly k - attempt + 1 further invocations. -/
theorem download_music_loop_firstSuccess (extract : Nat → Except PyExc String)
    (m : Nat → String) (p : String) (tag : Nat → Except String Unit)
    (abspath : String → String) (output_format : String) (N k : Nat)
    (hlt : ∀ i, i < k → extract i = Except.error (PyExc.downloadError (m i)))
    (hk : extract k = Except.ok p) (hkN : k < N) :
    ∀ remaining attempt, remaining + attempt = N → attempt ≤ k →
      (download_music_loop extract tag abspath output_format N remaining
          attempt).ret = some (music_success abspath output_format p) ∧
      (download_music_loop extract tag abspath output_format N remaining
          attempt).calls = k - attempt + 1 := by
  intro remaining
  induction remaining with
  | zero => intro attempt hsum hk'; omega
  | succ r ih =>
    intro attempt hsum hk'
    by_cases hA : attempt = k
    · subst hA
      constructor <;> simp [download_music_loop, hk]
    · have hlt' : attempt < k := by omega
      have hc : attempt < N - 1 := by omega
      obtain ⟨hret, hcalls⟩ := ih (attempt + 1) (by omega) (by omega)
      refine ⟨?_, ?_⟩
      · simp [download_music_loop, hlt attempt hlt', hc, hret]
      · simp [download_music_loop, hlt attempt hlt', hc, hcalls]
        omega

/-- C2: for a retry budget N, a delegate that raises a recoverable
DownloadError on exactly the first k invocations (k < N) and succeeds with
file path p on invocation k + 1, download_music returns the success path
computed from p after exactly k + 1 delegate invocations, making no further
attempts once it has succeeded. -/
theorem c2_success_after_k_failures (extract : Nat → Except PyExc String)
    (m : Nat → String) (p : String) (tag : Nat → Except String Unit)
    (abspath : String → String) (output_format : String) (N k : Nat)
    (hlt : ∀ i, i < k → extract i = Except.error (PyExc.downloadError (m i)))
    (hk : extract k = Except.ok p) (hkN : k < N) :
    (download_music extract tag abspath output_format N).ret =
      some (music_success abspath output_format p) ∧
    (download_music extract tag abspath output_format N).calls = k + 1 := by
  have h := download_music_loop_firstSuccess extract m p tag abspath
    output_format N k hlt hk hkN N 0 (by omega) (by omega)
  simpa [download_music] using h

/-- Witness for C2 with k = 2 failures, budget N = 3. -/
theorem c2_success_after_k_failures_witness :
    (∀ i, i < 2 → (fun j => if j < 2 then Except.error (PyExc.downloadError ("t"))
        else Except.ok ("s.webm")) i = Except.error (PyExc.downloadError ((fun _ => "t") i))) ∧
    (fun j => if j < 2 then Except.error (PyExc.downloadError ("t"))
        else Except.ok ("s.webm")) 2 = Except.ok ("s.webm") ∧
    2 < 3 ∧
    ((download_music (fun j => if j < 2 then Except.error (PyExc.downloadError ("t"))
          else Except.ok ("s.webm")) (fun _ => Except.ok ()) id ("mp3") 3).ret =
        some (music_success id ("mp3") ("s.webm")) ∧
     (download_music (fun j => if j < 2 then Except.error (PyExc.downloadError ("t"))
          else Except.ok ("s.webm")) (fun _ => Except.ok ()) id ("mp3") 3).calls = 2 + 1) :=
  ⟨fun i hi => by interval_cases i <;> rfl, rfl, by decide,
    c2_success_after_k_failures
      (fun j => if j < 2 then Except.error (PyExc.downloadError ("t")) else Except.ok ("s.webm"))
      (fun _ => ("t")) ("s.webm") (fun _ => Except.ok ()) id ("mp3") 3 2
      (fun i hi => by interval_cases i <;> rfl) rfl (by decide)⟩

/-- C3: for any retry budget N ≥ 1 and a delegate whose first invocation
raises an error that is not a DownloadError, download_music invokes the
delegate exactly once and immediately returns None with the unexpected-error
report logged (the except clause of line 135), consuming none of the remaining
budget. -/
theorem c3_unexpected_error_no_retry (extract : Nat → Except PyExc String)
    (tag : Nat → Except String Unit) (abspath : String → String)
    (output_format : String) (e : String) (N : Nat)
    (hext : extract 0 = Except.error (PyExc.otherExc e)) (hN : 1 ≤ N) :
    download_music extract tag abspath output_format N =
      { ret := none, calls := 1, log := [LogEvent.logUnexpectedError e] } := by
  obtain ⟨r, rfl⟩ : ∃ r, N = r + 1 := ⟨N - 1, by omega⟩
  simp [download_music, download_music_loop, hext]

/-- Witness for C3 at N = 3. -/
theorem c3_unexpected_error_no_retry_witness :
    (fun _ : Nat => (Except.error (PyExc.otherExc ("perm")) : Except PyExc String)) 0 =
      Except.error (PyExc.otherExc ("perm")) ∧
    1 ≤ 3 ∧
    download_music (fun _ => Except.error (PyExc.otherExc ("perm")))
        (fun _ => Except.ok ()) id ("mp3") 3 =
      { ret := none, calls := 1, log := [LogEvent.logUnexpectedError ("perm")] } :=
  ⟨rfl, by decide, c3_unexpected_error_no_retry
    (fun _ => Except.error (PyExc.otherExc ("perm"))) (fun _ => Except.ok ())
    id ("mp3") ("perm") 3 rfl (by decide)⟩

/-- C10: with a retry budget of 0 the range(0) loop body of download_music is
never entered, so the delegate is never invoked, nothing is logged, and the
function falls off the end returning None. -/
theorem c10_zero_retries_no_attempt (extract : Nat → Except PyExc String)
    (tag : Nat → Except String Unit) (abspath : String → String)
    (output_format : String) :
    download_music extract tag abspath output_format 0 =
      { ret := none, calls := 0, log := [] } := rfl

/-- C6: when the delegate succeeds with file path p and the tagging operation
raises, set_metadata catches and logs the tagging error internally (lines
95-96), so download_music still returns the Success path computed from p: a
tagging failure is logged and swallowed and never turns the success into a
failure. -/
theorem c6_tagging_failure_swallowed (extract : Nat → Except PyExc String)
    (tag : Nat → Except String Unit) (abspath : String → String)
    (output_format : String) (p te : String) (N : Nat)
    (hext : extract 0 = Except.ok p) (htag : tag 0 = Except.error te)
    (hN : 1 ≤ N) :
    download_music extract tag abspath output_format N =
      { ret := some (music_success abspath output_format p), calls := 1
        log := [LogEvent.logMetadataError te] } := by
  obtain ⟨r, rfl⟩ : ∃ r, N = r + 1 := ⟨N - 1, by omega⟩
  simp [download_music, download_music_loop, set_metadata, hext, htag]

/-- Witness for C6 at N = 3. -/
theorem c6_tagging_failure_swallowed_witness :
    (fun _ : Nat => (Except.ok ("song.webm") : Except PyExc String)) 0 =
      Except.ok ("song.webm") ∧
    (fun _ : Nat => (Except.error ("tagboom") : Except String Unit)) 0 =
      Except.error ("tagboom") ∧
    1 ≤ 3 ∧
    download_music (fun _ => Except.ok ("song.webm"))
        (fun _ => Except.error ("tagboom")) id ("mp3") 3 =
      { ret := some (music_success id ("mp3") ("song.webm")), calls := 1
        log := [LogEvent.logMetadataError ("tagboom")] } :=
  ⟨rfl, rfl, by decide,
    c6_tagging_failure_swallowed (fun _ => Except.ok ("song.webm"))
      (fun _ => Except.error ("tagboom")) id ("mp3") ("song.webm") ("tagboom") 3
      rfl rfl (by decide)⟩

/-- C7: for a stateless delegate that always succeeds with the same path p,
download_music returns Success with the path computed from p; in the pure
embedding two executions with the same descriptor are the same function
application, so the two conjuncts record the first and the second call of the
idempotence property: both yield Success with the same path. -/
theorem c7_idempotent_success (p : String) (tag : Nat → Except String Unit)
    (abspath : String → String) (output_format : String) (N : Nat)
    (hN : 1 ≤ N) :
    (download_music (fun _ => Except.ok p) tag abspath output_format N).ret =
      some (music_success abspath output_format p) ∧
    (download_music (fun _ => Except.ok p) tag abspath output_format N).ret =
      some (music_success abspath output_format p) := by
  obtain ⟨r, rfl⟩ : ∃ r, N = r + 1 := ⟨N - 1, by omega⟩
  exact ⟨rfl, rfl⟩

/-- Witness for C7 at N = 3. -/
theorem c7_idempotent_success_witness :
    1 ≤ 3 ∧
    ((download_music (fun _ => Except.ok ("p.webm")) (fun _ => Except.ok ())
        id ("mp3") 3).ret = some (music_success id ("mp3") ("p.webm")) ∧
     (download_music (fun _ => Except.ok ("p.webm")) (fun _ => Except.ok ())
        id ("mp3") 3).ret = some (music_success id ("mp3") ("p.webm"))) :=
  ⟨by decide, c7_idempotent_success ("p.webm") (fun _ => Except.ok ()) id
    ("mp3") 3 (by decide)⟩

/-- C9: scheduled_download invoked with no scheduled time takes the falsy
branch of line 438 and returns the result of download_video called with the
same url / proxy / output_format / output_dir / quality arguments (the same
configured delegate) and the default retry budget 3: the return value and the
number of delegate invocations coincide. -/
theorem c9_unscheduled_equals_download_video (extract : Nat → Except PyExc String)
    (abspath : String → String) (strptime_res : String → Except String Unit) :
    ∃ r, scheduled_download extract abspath strptime_res none = Except.ok r ∧
      r.ret = (download_video extract abspath 3).ret ∧
      r.calls = (download_video extract abspath 3).calls :=
  ⟨_, rfl, rfl, rfl⟩

/-- C5: batch isolation of download_parallel.  A task's entry among the batch
results is a total RunResult produced by download_music (whose except clauses
handle every modelled exception), so its failure is a value, never a raise;
the entry at position i depends only on the url at position i, so an
always-failing sibling neither changes nor cancels it; the result list pairs
one entry to every submitted url; and the call itself returns the unit value
after draining every future. -/
theorem c5_task_isolation_in_batch (perform : String → Nat → Except PyExc String)
    (tag : String → Nat → Except String Unit) (abspath : String → String)
    (output_format : String) (retries : Nat) (urls urls' : List String)
    (i : Nat) (h : urls[i]? = urls'[i]?) :
    (download_parallel_results perform tag abspath output_format retries urls)[i]? =
      (download_parallel_results perform tag abspath output_format retries urls')[i]? ∧
    (download_parallel_results perform tag abspath output_format retries urls).length =
      urls.length ∧
    download_parallel perform tag abspath output_format retries urls = () := by
  refine ⟨?_, by simp [download_parallel_results], Subsingleton.elim _ _⟩
  simp [download_parallel_results, h]

/-- Delegate behaviour used by the C5 witness: every url succeeds at once. -/
def c5Perform : String → Nat → Except PyExc String :=
  fun _ _ => Except.ok ("w.webm")

/-- Tagging behaviour used by the C5 witness: tagging always succeeds. -/
def c5Tag : String → Nat → Except String Unit := fun _ _ => Except.ok ()

/-- Witness for C5 at position 0 of two batches sharing their first url. -/
theorem c5_task_isolation_in_batch_witness :
    ([("a"), ("b")] : List String)[0]? = ([("a"), ("c")] : List String)[0]? ∧
    ((download_parallel_results c5Perform c5Tag id ("mp3") 3 [("a"), ("b")])[0]? =
      (download_parallel_results c5Perform c5Tag id ("mp3") 3 [("a"), ("c")])[0]? ∧
     (download_parallel_results c5Perform c5Tag id ("mp3") 3 [("a"), ("b")]).length =
      ([("a"), ("b")] : List String).length ∧
     download_parallel c5Perform c5Tag id ("mp3") 3 [("a"), ("b")] = ()) :=
  ⟨rfl, c5_task_isolation_in_batch c5Perform c5Tag id ("mp3") 3
    [("a"), ("b")] [("a"), ("c")] 0 rfl⟩

/-- Delegate behaviour for the C4 batch: urls u2 and u4 always raise a
recoverable DownloadError, the other urls succeed on the first attempt. -/
def c4Perform : String → Nat → Except PyExc String :=
  fun url _ =>
    if url = ("u2") ∨ url = ("u4") then Except.error (PyExc.downloadError ("net"))
    else Except.ok (url ++ (".webm"))

/-- Tagging behaviour for the C4 batch: tagging always succeeds. -/
def c4Tag : String → Nat → Except String Unit := fun _ _ => Except.ok ()

/-- The mixed C4 batch: three succeeding and two always-failing urls. -/
def c4Urls : List String := [("u1"), ("u2"), ("u3"), ("u4"), ("u5")]

/-- C4 counterexample: on the mixed batch of three succeeding and two
always-failing urls, download_parallel returns the very same value as on the
empty batch — the unit value standing for Python's None (the for loop of
lines 229-230 drops every future.result()).  No sequence of per-task outcomes
is returned, so the returned value cannot have three Success and two Failure
entries at their input positions as the claim states. -/
theorem c4_outcomes_not_returned_counterexample :
    download_parallel c4Perform c4Tag id ("mp3") 3 c4Urls =
      download_parallel c4Perform c4Tag id ("mp3") 3 [] := rfl

/-- C4 amended: download_parallel computes one outcome per url, in input
order — on the mixed batch the per-task results are Success, Failure,
Success, Failure, Success at their original input positions — but it discards
these outcomes and returns None instead of a sequence of outcomes. -/
theorem c4_outcomes_computed_but_discarded :
    (∀ (perform : String → Nat → Except PyExc String)
        (tag : String → Nat → Except String Unit) (abspath : String → String)
        (output_format : String) (retries : Nat) (urls : List String),
      (download_parallel_results perform tag abspath output_format retries
        urls).length = urls.length ∧
      download_parallel perform tag abspath output_format retries urls = ()) ∧
    (download_parallel_results c4Perform c4Tag id ("mp3") 3 c4Urls).map
        RunResult.ret =
      [some ("u1.mp3"), none, some ("u3.mp3"), none, some ("u5.mp3")] := by
  refine ⟨fun perform tag abspath output_format retries urls =>
    ⟨by simp [download_parallel_results], Subsingleton.elim _ _⟩, by decide⟩

/-- C8: the worker pool used by download_parallel is created with the literal
max_workers value 5 (line 225, not a parameter of the call), and in the pool
transition system every state reachable from an initial state with no running
task keeps at most that many tasks in processing simultaneously. -/
theorem c8_pool_bounded_by_five (n : Nat) (s : PoolState)
    (h : PoolReachable download_parallel_max_workers ⟨n, 0, 0⟩ s) :
    s.running ≤ download_parallel_max_workers ∧
      download_parallel_max_workers = 5 := by
  refine ⟨?_, rfl⟩
  induction h with
  | refl => exact Nat.zero_le _
  | tail hreach hstep ih =>
    cases hstep with
    | start p r c hlt => exact hlt
    | finish p r c => exact Nat.le_of_succ_le ih

/-- Witness for C8: one start transition from a two-task batch. -/
theorem c8_pool_bounded_by_five_witness :
    PoolReachable download_parallel_max_workers ⟨2, 0, 0⟩ ⟨1, 1, 0⟩ ∧
    ((⟨1, 1, 0⟩ : PoolState).running ≤ download_parallel_max_workers ∧
      download_parallel_max_workers = 5) :=
  ⟨Relation.ReflTransGen.single (PoolStep.start 1 0 0 (by decide)),
   c8_pool_bounded_by_five 2 ⟨1, 1, 0⟩
     (Relation.ReflTransGen.single (PoolStep.start 1 0 0 (by decide)))⟩
